import Mathlib

/-!
Verification of the simpleapi message-formatter module
(src/simpleapi/message/formatter.py).

The module is embedded shallowly:

* Python values that flow through the formatters are modelled by the
  inductive type PyVal (None, booleans, integers, unicode text, byte
  strings, datetime objects, lists and string-keyed dicts) - the fragment
  the formatters actually move around.
* The standard json codec (json.dumps / json.loads with CPython 2 default
  settings: separators (comma-space, colon-space), ensure_ascii) is
  modelled executably; the recursion over nested values is driven by an
  explicit fuel argument, mirroring CPython's recursion limit.
* PythonToXML and cPickle are external collaborators (the spec treats them
  as injected encode/decode pairs), so they are modelled as records of a
  dumps/loads pair that theorems quantify over.
* Raised exceptions become Except.error values of the Err enumeration.
* The registry (FormattersSingleton) keeps its dict as an association
  list with Python-dict update semantics; a small heap model captures the
  aliasing behaviour of dict copies for the snapshot claim.
-/

/-- The fragment of Python 2 runtime values the formatter module handles.
str is a unicode text value, bytes a Python 2 byte string, datetime a
timestamp object (a value the json codec cannot represent). -/
inductive PyVal where
  | none
  | bool (b : Bool)
  | int (n : Int)
  | str (s : String)
  | bytes (bs : List Nat)
  | datetime (year month day hour minute second : Nat)
  | list (xs : List PyVal)
  | dict (kvs : List (String × PyVal))

/-- Errors the embedded operations can signal.  typeError models Python
TypeError (bad registration probe, wrong-arity call, unserializable value),
attributeError models AttributeError (duplicate registration, forbidden
direct map mutation), nameError models NameError (read of an undefined free
variable), notImplemented models the bare raise NotImplemented in the
abstract base class, decodeError models the codec decode failures
(ValueError and friends). -/
inductive Err where
  | typeError
  | attributeError
  | nameError
  | notImplemented
  | decodeError
  deriving DecidableEq

/-- UTF-8 encoding of one character, as Python's unicode.encode("utf-8")
produces it. -/
def utf8EncodeChar (c : Char) : List Nat :=
  let n := c.toNat
  if n < 128 then [n]
  else if n < 2048 then [192 + n / 64, 128 + n % 64]
  else if n < 65536 then [224 + n / 4096, 128 + n / 64 % 64, 128 + n % 64]
  else [240 + n / 262144, 128 + n / 4096 % 64, 128 + n / 64 % 64, 128 + n % 64]

/-- UTF-8 encoding of a text value (unicode.encode("utf-8")). -/
def utf8Encode (s : String) : List Nat :=
  (s.data.map utf8EncodeChar).flatten

/-- Lower-case hexadecimal digit, as the json codec emits in escapes. -/
def hexDigitChar (n : Nat) : Char :=
  if n < 10 then Char.ofNat (48 + n) else Char.ofNat (97 + (n - 10))

/-- A backslash-u escape of a 16-bit code unit. -/
def uEscape (n : Nat) : List Char :=
  ['\\', 'u', hexDigitChar (n / 4096 % 16), hexDigitChar (n / 256 % 16),
   hexDigitChar (n / 16 % 16), hexDigitChar (n % 16)]

/-- How json.dumps (ensure_ascii=True, the CPython 2 default) renders one
character inside a string literal: the two-character escapes for quote,
backslash and the common control characters, backslash-u escapes for the
remaining control characters and for everything outside printable ASCII
(astral characters become a surrogate pair). -/
def jsonEscapeChar (c : Char) : List Char :=
  if c = '"' then ['\\', '"']
  else if c = '\\' then ['\\', '\\']
  else if c = '\n' then ['\\', 'n']
  else if c = '\t' then ['\\', 't']
  else if c = '\r' then ['\\', 'r']
  else if c = Char.ofNat 8 then ['\\', 'b']
  else if c = Char.ofNat 12 then ['\\', 'f']
  else if c.toNat < 32 || 126 < c.toNat then
    if c.toNat < 65536 then uEscape c.toNat
    else uEscape (55296 + (c.toNat - 65536) / 1024) ++ uEscape (56320 + (c.toNat - 65536) % 1024)
  else [c]

/-- A json string literal for s: quote, escaped characters, quote. -/
def jsonQuote (s : String) : String :=
  String.mk ('"' :: (s.data.map jsonEscapeChar).flatten ++ ['"'])

/-- Model of json.dumps with CPython 2 default settings, driven by fuel
(CPython's own recursion limit plays the same role). None, booleans,
integers, text, lists and string-keyed dicts serialize; a byte string or a
datetime object makes json.dumps raise TypeError, modelled as Option.none.
The default item separators are comma-space and colon-space. -/
def jsonDumpsF : Nat → PyVal → Option String
  | 0, _ => Option.none
  | fuel+1, v =>
    match v with
    | .none => some "null"
    | .bool true => some "true"
    | .bool false => some "false"
    | .int n => some (toString n)
    | .str s => some (jsonQuote s)
    | .bytes _ => Option.none
    | .datetime _ _ _ _ _ _ => Option.none
    | .list xs =>
        (xs.mapM (jsonDumpsF fuel)).map
          (fun parts => "[" ++ String.intercalate ", " parts ++ "]")
    | .dict kvs =>
        (kvs.mapM (fun kv =>
            (jsonDumpsF fuel kv.2).map (fun sv => jsonQuote kv.1 ++ ": " ++ sv))).map
          (fun parts => "\x7b" ++ String.intercalate ", " parts ++ "\x7d")

/-- json.dumps at the module's working recursion budget. -/
def jsonDumps (v : PyVal) : Option String :=
  jsonDumpsF 1000 v

/-- Skip json whitespace. -/
def skipWs : List Char → List Char
  | [] => []
  | c :: rest =>
      if c = ' ' || c = '\n' || c = '\t' || c = '\r' then skipWs rest else c :: rest

/-- Value of one hexadecimal digit. -/
def hexVal (c : Char) : Option Nat :=
  if '0' ≤ c ∧ c ≤ '9' then some (c.toNat - 48)
  else if 'a' ≤ c ∧ c ≤ 'f' then some (c.toNat - 87)
  else if 'A' ≤ c ∧ c ≤ 'F' then some (c.toNat - 55)
  else Option.none

/-- Parse the body of a json string literal (after the opening quote) up to
its closing quote, decoding the escapes json.dumps emits, surrogate pairs
included.  Returns the decoded characters and the unconsumed input. -/
def parseJStrChars : List Char → Option (List Char × List Char)
  | [] => Option.none
  | '"' :: rest => some ([], rest)
  | '\\' :: esc =>
    match esc with
    | 'u' :: a :: b :: c :: d :: rest => do
        let ha ← hexVal a
        let hb ← hexVal b
        let hc ← hexVal c
        let hd ← hexVal d
        let n := ha * 4096 + hb * 256 + hc * 16 + hd
        if 55296 ≤ n ∧ n ≤ 56319 then
          match rest with
          | '\\' :: 'u' :: a2 :: b2 :: c2 :: d2 :: rest2 => do
              let h2a ← hexVal a2
              let h2b ← hexVal b2
              let h2c ← hexVal c2
              let h2d ← hexVal d2
              let m := h2a * 4096 + h2b * 256 + h2c * 16 + h2d
              if 56320 ≤ m ∧ m ≤ 57343 then
                (parseJStrChars rest2).map
                  (fun p => (Char.ofNat (65536 + (n - 55296) * 1024 + (m - 56320)) :: p.1, p.2))
              else Option.none
          | _ => Option.none
        else (parseJStrChars rest).map (fun p => (Char.ofNat n :: p.1, p.2))
    | c :: rest => do
        let ch ←
          if c = '"' then some '"'
          else if c = '\\' then some '\\'
          else if c = '/' then some '/'
          else if c = 'n' then some '\n'
          else if c = 't' then some '\t'
          else if c = 'r' then some '\r'
          else if c = 'b' then some (Char.ofNat 8)
          else if c = 'f' then some (Char.ofNat 12)
          else Option.none
        (parseJStrChars rest).map (fun p => (ch :: p.1, p.2))
    | [] => Option.none
  | c :: rest => (parseJStrChars rest).map (fun p => (c :: p.1, p.2))

/-- Digits to a natural number. -/
def digitsToNat (ds : List Char) : Nat :=
  ds.foldl (fun n c => n * 10 + (c.toNat - 48)) 0

/-- Parse a json integer (the value model carries no floats). -/
def parseJNum : List Char → Option (PyVal × List Char)
  | '-' :: rest =>
      match rest.span (fun c => c.isDigit) with
      | (ds, rest2) =>
          if ds.isEmpty then Option.none
          else some (.int (-(Int.ofNat (digitsToNat ds))), rest2)
  | cs =>
      match cs.span (fun c => c.isDigit) with
      | (ds, rest2) =>
          if ds.isEmpty then Option.none
          else some (.int (Int.ofNat (digitsToNat ds)), rest2)

/-- Intermediate results of the json parser: a single value, the elements
of an array tail, or the fields of an object tail. -/
inductive JOut where
  | val (v : PyVal)
  | elems (xs : List PyVal)
  | fields (kvs : List (String × PyVal))

/-- Parser modes: a value, the element list after an opening bracket, the
field list after an opening brace. -/
inductive JMode where
  | val
  | arr
  | obj

/-- Recursive-descent json parser (model of json.loads), fuel-driven.
Parses null, true, false, string literals, integers, arrays and objects;
returns the parsed piece and the unconsumed input. -/
def jsonPF : Nat → JMode → List Char → Option (JOut × List Char)
  | 0, _, _ => Option.none
  | fuel+1, .val, cs =>
    match skipWs cs with
    | 'n' :: 'u' :: 'l' :: 'l' :: rest => some (.val .none, rest)
    | 't' :: 'r' :: 'u' :: 'e' :: rest => some (.val (.bool true), rest)
    | 'f' :: 'a' :: 'l' :: 's' :: 'e' :: rest => some (.val (.bool false), rest)
    | '"' :: rest =>
        (parseJStrChars rest).map (fun p => (.val (.str (String.mk p.1)), p.2))
    | '[' :: rest =>
        (match skipWs rest with
         | ']' :: rest2 => some (.val (.list []), rest2)
         | _ => do
             let pr ← jsonPF fuel .arr rest
             match pr with
             | (.elems xs, rest2) => some (.val (.list xs), rest2)
             | _ => Option.none)
    | '\x7b' :: rest =>
        (match skipWs rest with
         | '\x7d' :: rest2 => some (.val (.dict []), rest2)
         | _ => do
             let pr ← jsonPF fuel .obj rest
             match pr with
             | (.fields kvs, rest2) => some (.val (.dict kvs), rest2)
             | _ => Option.none)
    | cs2 => parseJNum cs2 |>.map (fun p => (.val p.1, p.2))
  | fuel+1, .arr, cs => do
      let pr ← jsonPF fuel .val cs
      match pr with
      | (.val x, rest) =>
        (match skipWs rest with
         | ',' :: rest2 => do
             let pr2 ← jsonPF fuel .arr rest2
             match pr2 with
             | (.elems xs, rest3) => some (.elems (x :: xs), rest3)
             | _ => Option.none
         | ']' :: rest2 => some (.elems [x], rest2)
         | _ => Option.none)
      | _ => Option.none
  | fuel+1, .obj, cs =>
      match skipWs cs with
      | '"' :: restk => do
          let pk ← parseJStrChars restk
          match skipWs pk.2 with
          | ':' :: rest2 => do
              let pr ← jsonPF fuel .val rest2
              match pr with
              | (.val x, rest3) =>
                (match skipWs rest3 with
                 | ',' :: rest4 => do
                     let pr2 ← jsonPF fuel .obj rest4
                     match pr2 with
                     | (.fields kvs, rest5) => some (.fields ((String.mk pk.1, x) :: kvs), rest5)
                     | _ => Option.none
                 | '\x7d' :: rest4 => some (.fields [(String.mk pk.1, x)], rest4)
                 | _ => Option.none)
              | _ => Option.none
          | _ => Option.none
      | _ => Option.none

/-- Model of json.loads: parse one value, allow surrounding whitespace,
reject trailing input; a malformed document yields Option.none (the codec
raises ValueError). -/
def jsonLoads (s : String) : Option PyVal :=
  match jsonPF (2 * s.data.length + 8) .val s.data with
  | some (.val v, rest) => if (skipWs rest).isEmpty then some v else Option.none
  | _ => Option.none

/-- Model of Python 2 repr for the value fragment, fuel-driven (used by
unicode() on containers).  Scalars render as CPython does; text inside
containers renders with the unicode prefix and without the rarely needed
character escapes, an abbreviation that no theorem depends on. -/
def pyReprF : Nat → PyVal → String
  | 0, _ => ""
  | fuel+1, v =>
    match v with
    | .none => "None"
    | .bool true => "True"
    | .bool false => "False"
    | .int n => toString n
    | .str s => "u\x27" ++ s ++ "\x27"
    | .bytes bs => "\x27" ++ String.mk (bs.map Char.ofNat) ++ "\x27"
    | .datetime y mo d h mi s =>
        "datetime.datetime(" ++ String.intercalate ", " ([y, mo, d, h, mi, s].map toString) ++ ")"
    | .list xs => "[" ++ String.intercalate ", " (xs.map (pyReprF fuel)) ++ "]"
    | .dict kvs =>
        "\x7b" ++ String.intercalate ", "
          (kvs.map (fun kv => "u\x27" ++ kv.1 ++ "\x27: " ++ pyReprF fuel kv.2)) ++ "\x7d"

/-- Model of Python 2 unicode(value): text passes through, a byte string is
decoded, everything else renders via repr. -/
def pyUnicode (v : PyVal) : String :=
  match v with
  | .str s => s
  | .bytes bs => String.mk (bs.map Char.ofNat)
  | _ => pyReprF 1000 v

/-- The statics of a registered formatter class, as the registry sees them:
the outcome of the registration probe isinstance(formatter(None, None),
Formatter), the mime attribute, and the active-by-default attribute, which
is absent (Option.none) on every class that does not set it - get_defaults
reads it through getattr with default True. -/
structure Ctor where
  isFormatter : Bool
  mime : Option String
  activeByDefault : Option Bool
  deriving DecidableEq

/-- Association-list lookup with Python dict.get semantics (missing key
gives Option.none). -/
def dictGet : List (String × Ctor) → String → Option Ctor
  | [], _ => Option.none
  | (k, v) :: rest, name => if k = name then some v else dictGet rest name

/-- Association-list update with Python dict assignment semantics: an
existing key is overwritten in place, a new key is appended. -/
def dictSet : List (String × Ctor) → String → Ctor → List (String × Ctor)
  | [], name, c => [(name, c)]
  | (k, v) :: rest, name, c =>
      if k = name then (k, c) :: rest else (k, v) :: dictSet rest name c

/-- Python's "name in dict" membership test. -/
def hasKey : List (String × Ctor) → String → Bool
  | [], _ => false
  | (k, _) :: rest, name => k = name || hasKey rest name

/-- The key list of a dict. -/
def dictKeys (st : List (String × Ctor)) : List String :=
  st.map Prod.fst

/-- dict(pairs): fold the pairs into a fresh dict, later keys overriding. -/
def dictOfPairs (l : List (String × Ctor)) : List (String × Ctor) :=
  l.foldl (fun m p => dictSet m p.1 p.2) []

namespace FormattersSingleton

/-- FormattersSingleton.register: probe the constructor with null context
and reject non-Formatter results with TypeError; reject a duplicate name
without override with AttributeError; otherwise store the constructor. -/
def register (st : List (String × Ctor)) (name : String) (formatter : Ctor)
    (override : Bool) : Except Err (List (String × Ctor)) :=
  if ¬ formatter.isFormatter then Except.error Err.typeError
  else if hasKey st name && !override then Except.error Err.attributeError
  else Except.ok (dictSet st name formatter)

/-- FormattersSingleton.get_defaults: keep the items whose class attribute
active-by-default is true (getattr default True), rebuild a dict from them
and return its keys. -/
def get_defaults (st : List (String × Ctor)) : List String :=
  dictKeys (dictOfPairs (st.filter (fun item => item.2.activeByDefault.getD true)))

/-- FormattersSingleton.copy: dict(**self._formatters), a fresh dict with
the same contents (the heap model below captures the freshness). -/
def copy (st : List (String × Ctor)) : List (String × Ctor) :=
  st

/-- FormattersSingleton.__contains__. -/
def contains (st : List (String × Ctor)) (value : String) : Bool :=
  hasKey st value

/-- FormattersSingleton.__getitem__: self._formatters.get(name), never a
KeyError. -/
def getItem (st : List (String × Ctor)) (name : String) : Option Ctor :=
  dictGet st name

/-- FormattersSingleton.__setitem__: any direct assignment raises
AttributeError. -/
def setItem (_st : List (String × Ctor)) (_name : String) (_c : Ctor) :
    Except Err (List (String × Ctor)) :=
  Except.error Err.attributeError

end FormattersSingleton

/-- The PythonToXML collaborator (module py2xml), an external injected
encode/decode pair; decode failure is Option.none. -/
structure PythonToXML where
  dumps : PyVal → String
  loads : String → Option PyVal

/-- The cPickle collaborator, the native object serializer: an external
injected encode/decode pair over byte strings. -/
structure CPickle where
  dumps : PyVal → List Nat
  loads : List Nat → Option PyVal

namespace Formatter

/-- Formatter.build on the abstract base class: raise NotImplemented. -/
def build (_value : PyVal) : Except Err PyVal :=
  Except.error Err.notImplemented

/-- Formatter.kwargs (the dispatch entry point) on the abstract base class:
raise NotImplemented.  The action parameter defaults to build in the
source; the caller always supplies it. -/
def kwargs (_value : PyVal) (_action : String) : Except Err PyVal :=
  Except.error Err.notImplemented

/-- Formatter.parse on the abstract base class: raise NotImplemented. -/
def parse (_value : PyVal) : Except Err PyVal :=
  Except.error Err.notImplemented

end Formatter

namespace JSONFormatter

/-- JSONFormatter.build: json.dumps(value); an unserializable value raises
TypeError. -/
def build (value : PyVal) : Except Err PyVal :=
  match jsonDumps value with
  | some s => Except.ok (PyVal.str s)
  | Option.none => Except.error Err.typeError

/-- JSONFormatter.parse: json.loads(value) on text; a malformed document
raises (decodeError), a non-text value raises TypeError. -/
def parse (value : PyVal) : Except Err PyVal :=
  match value with
  | .str s =>
      match jsonLoads s with
      | some v => Except.ok v
      | Option.none => Except.error Err.decodeError
  | _ => Except.error Err.typeError

/-- JSONFormatter.kwargs: route action build to build and action parse to
parse; any other action falls through both branches and the method returns
None implicitly. -/
def kwargs (value : PyVal) (action : String) : Except Err PyVal :=
  if action = "build" then build value
  else if action = "parse" then parse value
  else Except.ok PyVal.none

/-- Class statics: mime application/json, no active-by-default attribute,
instances are Formatter subclass instances. -/
def ctor : Ctor :=
  ⟨true, some "application/json", Option.none⟩

end JSONFormatter

namespace JSONPFormatter

/-- self.callback or the simpleapiCallback literal: Python or-truthiness,
so both a missing callback and an empty string fall back. -/
def callbackOrDefault (callback : Option String) : String :=
  match callback with
  | some c => if c = "" then "simpleapiCallback" else c
  | Option.none => "simpleapiCallback"

/-- JSONPFormatter.build: wrap json.dumps(value) in a call of the callback
name. -/
def build (callback : Option String) (value : PyVal) : Except Err PyVal :=
  match jsonDumps value with
  | some s => Except.ok (PyVal.str (callbackOrDefault callback ++ "(" ++ s ++ ")"))
  | Option.none => Except.error Err.typeError

/-- JSONPFormatter.kwargs: the source declares def kwargs(self, value) with
no action parameter, so the two-argument dispatch call raises TypeError
before the body runs; the body itself reads the undefined free name action
and would raise NameError even when called with one argument. -/
def kwargs (_value : PyVal) (_action : String) : Except Err PyVal :=
  Except.error Err.typeError

/-- JSONPFormatter.parse: json.loads(value), as in the JSON variant. -/
def parse (value : PyVal) : Except Err PyVal :=
  match value with
  | .str s =>
      match jsonLoads s with
      | some v => Except.ok v
      | Option.none => Except.error Err.decodeError
  | _ => Except.error Err.typeError

/-- Class statics: mime application/javascript. -/
def ctor : Ctor :=
  ⟨true, some "application/javascript", Option.none⟩

end JSONPFormatter

namespace ValueFormatter

/-- ValueFormatter.build: return the value unchanged. -/
def build (value : PyVal) : Except Err PyVal :=
  Except.ok value

/-- ValueFormatter.parse: unicode(value). -/
def parse (value : PyVal) : Except Err PyVal :=
  Except.ok (PyVal.str (pyUnicode value))

/-- ValueFormatter.kwargs: route to build or parse; any other action makes
the method return None implicitly. -/
def kwargs (value : PyVal) (action : String) : Except Err PyVal :=
  if action = "build" then build value
  else if action = "parse" then parse value
  else Except.ok PyVal.none

/-- Class statics: mime text/html. -/
def ctor : Ctor :=
  ⟨true, some "text/html", Option.none⟩

end ValueFormatter

namespace PickleFormatter

/-- PickleFormatter.build: cPickle.dumps(value), a byte string. -/
def build (P : CPickle) (value : PyVal) : Except Err PyVal :=
  Except.ok (PyVal.bytes (P.dumps value))

/-- PickleFormatter.parse: a unicode value is first encoded to UTF-8 bytes,
then the bytes go to cPickle.loads; a byte string goes to cPickle.loads
directly; anything else makes cPickle.loads raise TypeError. -/
def parse (P : CPickle) (value : PyVal) : Except Err PyVal :=
  match value with
  | .str s =>
      match P.loads (utf8Encode s) with
      | some v => Except.ok v
      | Option.none => Except.error Err.decodeError
  | .bytes bs =>
      match P.loads bs with
      | some v => Except.ok v
      | Option.none => Except.error Err.decodeError
  | _ => Except.error Err.typeError

/-- PickleFormatter.kwargs: route to build or parse; any other action makes
the method return None implicitly. -/
def kwargs (P : CPickle) (value : PyVal) (action : String) : Except Err PyVal :=
  if action = "build" then build P value
  else if action = "parse" then parse P value
  else Except.ok PyVal.none

/-- Class statics: mime application/octet-stream and an explicit
active-by-default attribute set to False. -/
def ctor : Ctor :=
  ⟨true, some "application/octet-stream", some false⟩

end PickleFormatter

namespace XMLFormatter

/-- XMLFormatter.build: PythonToXML.dumps(value). -/
def build (X : PythonToXML) (value : PyVal) : Except Err PyVal :=
  Except.ok (PyVal.str (X.dumps value))

/-- XMLFormatter.parse: PythonToXML.loads(value) on text; a decode failure
raises (decodeError), a non-text value raises TypeError. -/
def parse (X : PythonToXML) (value : PyVal) : Except Err PyVal :=
  match value with
  | .str s =>
      match X.loads s with
      | some v => Except.ok v
      | Option.none => Except.error Err.decodeError
  | _ => Except.error Err.typeError

/-- XMLFormatter.kwargs: route to build or parse; any other action makes
the method return None implicitly. -/
def kwargs (X : PythonToXML) (value : PyVal) (action : String) : Except Err PyVal :=
  if action = "build" then build X value
  else if action = "parse" then parse X value
  else Except.ok PyVal.none

/-- Class statics: mime text/xml. -/
def ctor : Ctor :=
  ⟨true, some "text/xml", Option.none⟩

end XMLFormatter

/-- The module-load registration sequence: the five built-in variants are
registered in source order, each without override. -/
def loadModule : Except Err (List (String × Ctor)) :=
  (FormattersSingleton.register [] "json" JSONFormatter.ctor false).bind fun st1 =>
  (FormattersSingleton.register st1 "jsonp" JSONPFormatter.ctor false).bind fun st2 =>
  (FormattersSingleton.register st2 "value" ValueFormatter.ctor false).bind fun st3 =>
  (FormattersSingleton.register st3 "pickle" PickleFormatter.ctor false).bind fun st4 =>
  FormattersSingleton.register st4 "xml" XMLFormatter.ctor false

/-- The registry contents after module load. -/
def builtinState : List (String × Ctor) :=
  [("json", JSONFormatter.ctor), ("jsonp", JSONPFormatter.ctor),
   ("value", ValueFormatter.ctor), ("pickle", PickleFormatter.ctor),
   ("xml", XMLFormatter.ctor)]


/-- A heap of Python dicts, for the aliasing behaviour of
FormattersSingleton.copy: addresses are indices, the registry's own dict
lives at one address and dict(**...) allocates a fresh one. -/
structure Heap where
  dicts : List (List (String × Ctor))

/-- Contents of the dict at an address. -/
def Heap.get (h : Heap) (a : Nat) : List (String × Ctor) :=
  h.dicts.getD a []

/-- Overwrite the dict at an address. -/
def Heap.put (h : Heap) (a : Nat) (d : List (String × Ctor)) : Heap :=
  ⟨h.dicts.set a d⟩

/-- Allocate a fresh dict, returning the new heap and the fresh address. -/
def Heap.alloc (h : Heap) (d : List (String × Ctor)) : Heap × Nat :=
  (⟨h.dicts ++ [d]⟩, h.dicts.length)

/-- FormattersSingleton.copy at the heap level: dict(**self._formatters)
reads the registry dict and allocates a fresh dict with the same
contents. -/
def copyDict (h : Heap) (regAddr : Nat) : Heap × Nat :=
  h.alloc (h.get regAddr)

/-- The mutations a caller can apply to a dict it holds: add or replace an
entry, or delete one. -/
inductive DictOp where
  | put (k : String) (v : Ctor)
  | del (k : String)

/-- Apply one mutation to dict contents. -/
def applyOp (d : List (String × Ctor)) : DictOp → List (String × Ctor)
  | .put k v => dictSet d k v
  | .del k => d.filter (fun p => p.1 != k)

/-- Apply a sequence of mutations to the dict at an address. -/
def applyOps (h : Heap) (a : Nat) (ops : List DictOp) : Heap :=
  ops.foldl (fun h2 op => h2.put a (applyOp (h2.get a) op)) h

/-- The registry states reachable through the public interface: the empty
initial dict, then any sequence of successful register calls (lookup,
containment, copy and get_defaults do not mutate). -/
inductive Reachable : List (String × Ctor) → Prop
  | init : Reachable []
  | step (st st' : List (String × Ctor)) (name : String) (c : Ctor) (override : Bool) :
      Reachable st → FormattersSingleton.register st name c override = Except.ok st' →
      Reachable st'

theorem dictGet_dictSet_self (st : List (String × Ctor)) (k : String) (c : Ctor) :
    dictGet (dictSet st k c) k = some c := by
  induction st with
  | nil => simp [dictSet, dictGet]
  | cons hd tl ih =>
      by_cases h : hd.1 = k
      · simp [dictSet, dictGet, h]
      · simpa [dictSet, dictGet, h] using ih

theorem hasKey_of_dictGet (st : List (String × Ctor)) (k : String) (c : Ctor)
    (h : dictGet st k = some c) : hasKey st k = true := by
  induction st with
  | nil => simp [dictGet] at h
  | cons hd tl ih =>
      by_cases hk : hd.1 = k
      · simp [hasKey, hk]
      · simp [dictGet, hk] at h
        simp [hasKey, hk, ih h]

theorem dictKeys_dictSet_mem (st : List (String × Ctor)) (k : String) (c : Ctor)
    (h : k ∈ dictKeys st) : dictKeys (dictSet st k c) = dictKeys st := by
  induction st with
  | nil => simp [dictKeys] at h
  | cons hd tl ih =>
      by_cases hk : hd.1 = k
      · simp [dictSet, dictKeys, hk]
      · have h2 : k ∈ dictKeys tl := by
          rcases List.mem_cons.mp (by simpa only [dictKeys, List.map_cons] using h) with h1 | h1
          · exact absurd h1.symm hk
          · exact h1
        simp only [dictSet, hk, if_neg, ite_false, dictKeys, List.map_cons]
        rw [show tl.map Prod.fst = dictKeys tl from rfl,
          show (dictSet tl k c).map Prod.fst = dictKeys (dictSet tl k c) from rfl, ih h2]

theorem dictKeys_dictSet_not_mem (st : List (String × Ctor)) (k : String) (c : Ctor)
    (h : k ∉ dictKeys st) : dictKeys (dictSet st k c) = dictKeys st ++ [k] := by
  induction st with
  | nil => simp [dictSet, dictKeys]
  | cons hd tl ih =>
      have hk : ¬ hd.1 = k := by
        intro he
        exact h (by simp only [dictKeys, List.map_cons]; exact List.mem_cons.mpr (Or.inl he.symm))
      have h2 : k ∉ dictKeys tl := by
        intro hm
        exact h (by simp only [dictKeys, List.map_cons]; exact List.mem_cons.mpr (Or.inr hm))
      simp only [dictSet, hk, ite_false, dictKeys, List.map_cons, List.cons_append]
      rw [show (dictSet tl k c).map Prod.fst = dictKeys (dictSet tl k c) from rfl, ih h2]
      rfl

theorem nodup_dictKeys_dictSet (st : List (String × Ctor)) (k : String) (c : Ctor)
    (h : (dictKeys st).Nodup) : (dictKeys (dictSet st k c)).Nodup := by
  by_cases hm : k ∈ dictKeys st
  · rw [dictKeys_dictSet_mem st k c hm]; exact h
  · rw [dictKeys_dictSet_not_mem st k c hm]
    simpa [List.nodup_append] using ⟨h, hm⟩

theorem mem_dictKeys_dictSet (st : List (String × Ctor)) (k k' : String) (c : Ctor)
    (h : k' ∈ dictKeys (dictSet st k c)) : k' ∈ dictKeys st ∨ k' = k := by
  by_cases hm : k ∈ dictKeys st
  · rw [dictKeys_dictSet_mem st k c hm] at h; exact Or.inl h
  · rw [dictKeys_dictSet_not_mem st k c hm] at h
    simpa using h

theorem mem_dictKeys_foldl (l : List (String × Ctor)) (init : List (String × Ctor))
    (k : String) (h : k ∈ dictKeys (l.foldl (fun m p => dictSet m p.1 p.2) init)) :
    k ∈ dictKeys init ∨ k ∈ l.map Prod.fst := by
  induction l generalizing init with
  | nil => simpa using h
  | cons hd tl ih =>
      simp only [List.foldl_cons] at h
      rcases ih (dictSet init hd.1 hd.2) h with h2 | h2
      · rcases mem_dictKeys_dictSet init hd.1 k hd.2 h2 with h3 | h3
        · exact Or.inl h3
        · exact Or.inr (by simp [h3])
      · exact Or.inr (by simp [h2])

theorem mem_dictKeys_dictOfPairs (l : List (String × Ctor)) (k : String)
    (h : k ∈ dictKeys (dictOfPairs l)) : k ∈ l.map Prod.fst := by
  rcases mem_dictKeys_foldl l [] k h with h2 | h2
  · simp [dictKeys] at h2
  · exact h2

theorem Heap.get_put_ne (h : Heap) (a a' : Nat) (d : List (String × Ctor)) (hne : a ≠ a') :
    (h.put a d).get a' = h.get a' := by
  show (h.dicts.set a d).getD a' [] = h.dicts.getD a' []
  by_cases hlt : a' < h.dicts.length
  · rw [List.getD_eq_getElem _ _ (by simpa using hlt), List.getD_eq_getElem _ _ hlt]
    apply List.getElem_set_ne hne
  · rw [List.getD_eq_default _ _ (by simpa using Nat.le_of_not_lt hlt),
      List.getD_eq_default _ _ (Nat.le_of_not_lt hlt)]

theorem Heap.get_alloc_lt (h : Heap) (d : List (String × Ctor)) (a' : Nat)
    (hlt : a' < h.dicts.length) : (h.alloc d).1.get a' = h.get a' :=
  List.getD_append _ _ _ _ hlt

theorem Heap.get_applyOps_ne (ops : List DictOp) (h : Heap) (a a' : Nat) (hne : a ≠ a') :
    (applyOps h a ops).get a' = h.get a' := by
  induction ops generalizing h with
  | nil => rfl
  | cons op rest ih =>
      exact (ih (h.put a (applyOp (h.get a) op))).trans (Heap.get_put_ne h a a' _ hne)

/-- First representative structured value: a mapping with scalar, sequence
and nested-mapping entries. -/
def rep1 : PyVal :=
  .dict [("a", .int 1),
         ("b", .list [.int 1, .str "two", .bool true, .none]),
         ("nested", .dict [("x", .str "y")])]

/-- Second representative structured value: a sequence mixing mappings,
nesting, non-ASCII text and scalars. -/
def rep2 : PyVal :=
  .list [.dict [("k", .int (-3))], .list [.list []], .str "café", .bool false]

/-- Third representative structured value: text that needs json escaping. -/
def rep3 : PyVal :=
  .str "line\nbreak \"quoted\" back\\slash"

/-- The representative nested mapping/sequence/scalar combinations the
round-trip property is checked on. -/
def representativeValues : List PyVal :=
  [rep1, rep2, rep3]

/-- A timestamp object: a value json cannot represent but cPickle can. -/
def timestampValue : PyVal :=
  .datetime 2010 5 14 12 30 45

/-- A concrete PythonToXML collaborator used to witness the injected-codec
hypotheses on the representative values. -/
def demoXML : PythonToXML :=
  ⟨fun v => (jsonDumps v).getD "", jsonLoads⟩

/-- Encoder of the concrete cPickle collaborator used in witnesses: the
timestamp gets a private tag, everything else reuses the json text as
bytes. -/
def demoPickleDumps (v : PyVal) : List Nat :=
  match v with
  | .datetime 2010 5 14 12 30 45 => [0]
  | _ => 1 :: utf8Encode ((jsonDumps v).getD "")

/-- Decoder of the concrete cPickle collaborator: inverts demoPickleDumps
on the representative values and the timestamp. -/
def demoPickleLoads (bs : List Nat) : Option PyVal :=
  if bs = demoPickleDumps timestampValue then some timestampValue
  else if bs = demoPickleDumps rep1 then some rep1
  else if bs = demoPickleDumps rep2 then some rep2
  else if bs = demoPickleDumps rep3 then some rep3
  else Option.none

/-- The concrete cPickle collaborator used in witnesses. -/
def demoPickle : CPickle :=
  ⟨demoPickleDumps, demoPickleLoads⟩

theorem register_ok_eq (st st' : List (String × Ctor)) (name : String) (c : Ctor)
    (override : Bool)
    (h : FormattersSingleton.register st name c override = Except.ok st') :
    st' = dictSet st name c := by
  unfold FormattersSingleton.register at h
  split at h
  · cases h
  · split at h
    · cases h
    · cases h
      rfl

/-- C3: for every value and every action, build, parse and dispatch
(kwargs) on the abstract base Formatter fail with the NotImplemented
error. -/
theorem c3_base_not_implemented (v : PyVal) (a : String) :
    Formatter.build v = Except.error Err.notImplemented
    ∧ Formatter.kwargs v a = Except.error Err.notImplemented
    ∧ Formatter.parse v = Except.error Err.notImplemented :=
  ⟨rfl, rfl, rfl⟩

/-- C5: JSONP build of the mapping a to 1 yields the simpleapiCallback
wrapping when no callback was supplied at construction, and the cb wrapping
when the callback cb was supplied. -/
theorem c5_jsonp_build :
    JSONPFormatter.build Option.none (PyVal.dict [("a", PyVal.int 1)])
      = Except.ok (PyVal.str "simpleapiCallback(\x7b\"a\": 1\x7d)")
    ∧ JSONPFormatter.build (some "cb") (PyVal.dict [("a", PyVal.int 1)])
      = Except.ok (PyVal.str "cb(\x7b\"a\": 1\x7d)") :=
  ⟨rfl, rfl⟩

/-- C1 fails on the code at the jsonp variant: dispatch (kwargs) on a JSONP
instance raises TypeError (its kwargs method takes no action parameter),
while build succeeds, so dispatch of build is not build. -/
theorem c1_counterexample :
    JSONPFormatter.kwargs PyVal.none "build" = Except.error Err.typeError
    ∧ JSONPFormatter.build Option.none PyVal.none
        = Except.ok (PyVal.str "simpleapiCallback(null)")
    ∧ (Except.error Err.typeError : Except Err PyVal)
        ≠ Except.ok (PyVal.str "simpleapiCallback(null)") :=
  ⟨rfl, rfl, fun h => Except.noConfusion h⟩

/-- C1 as amended: for the json, value, pickle and xml variants dispatch
with action build returns build of the value and dispatch with action parse
returns parse of the value; the jsonp variant's dispatch instead fails with
TypeError for every action, because its kwargs method accepts no action
argument (and its body reads an undefined free name). -/
theorem c1_dispatch_routes (X : PythonToXML) (P : CPickle) (v : PyVal) :
    (JSONFormatter.kwargs v "build" = JSONFormatter.build v
      ∧ JSONFormatter.kwargs v "parse" = JSONFormatter.parse v)
    ∧ (ValueFormatter.kwargs v "build" = ValueFormatter.build v
      ∧ ValueFormatter.kwargs v "parse" = ValueFormatter.parse v)
    ∧ (PickleFormatter.kwargs P v "build" = PickleFormatter.build P v
      ∧ PickleFormatter.kwargs P v "parse" = PickleFormatter.parse P v)
    ∧ (XMLFormatter.kwargs X v "build" = XMLFormatter.build X v
      ∧ XMLFormatter.kwargs X v "parse" = XMLFormatter.parse X v)
    ∧ (∀ a : String, JSONPFormatter.kwargs v a = Except.error Err.typeError) :=
  ⟨⟨rfl, rfl⟩, ⟨rfl, rfl⟩, ⟨rfl, rfl⟩, ⟨rfl, rfl⟩, fun _ => rfl⟩

/-- C2: with a name already registered, register without override fails
with the duplicate-name AttributeError, register with override succeeds
and replaces the mapping, and a subsequent lookup returns the new
constructor. -/
theorem c2_register_override (st : List (String × Ctor)) (name : String) (c0 c : Ctor)
    (h0 : FormattersSingleton.getItem st name = some c0) (hc : c.isFormatter = true) :
    FormattersSingleton.register st name c false = Except.error Err.attributeError
    ∧ FormattersSingleton.register st name c true = Except.ok (dictSet st name c)
    ∧ FormattersSingleton.getItem (dictSet st name c) name = some c := by
  have hk : hasKey st name = true := hasKey_of_dictGet st name c0 h0
  refine ⟨?_, ?_, dictGet_dictSet_self st name c⟩
  · simp [FormattersSingleton.register, hc, hk]
  · simp [FormattersSingleton.register, hc, hk]

theorem c2_register_override_witness :
    FormattersSingleton.register [("json", JSONFormatter.ctor)] "json" XMLFormatter.ctor false
      = Except.error Err.attributeError
    ∧ FormattersSingleton.register [("json", JSONFormatter.ctor)] "json" XMLFormatter.ctor true
      = Except.ok (dictSet [("json", JSONFormatter.ctor)] "json" XMLFormatter.ctor)
    ∧ FormattersSingleton.getItem (dictSet [("json", JSONFormatter.ctor)] "json" XMLFormatter.ctor) "json"
      = some XMLFormatter.ctor :=
  c2_register_override [("json", JSONFormatter.ctor)] "json" JSONFormatter.ctor
    XMLFormatter.ctor rfl rfl

/-- C4: module load registers exactly the five built-ins, and on that state
get_defaults returns exactly the names json, jsonp, value and xml - every
built-in except pickle - and pickle is excluded. -/
theorem c4_default_names :
    loadModule = Except.ok builtinState
    ∧ (∀ n, n ∈ FormattersSingleton.get_defaults builtinState ↔
        (n = "json" ∨ n = "jsonp" ∨ n = "value" ∨ n = "xml"))
    ∧ "pickle" ∉ FormattersSingleton.get_defaults builtinState := by
  refine ⟨rfl, ?_, ?_⟩
  · intro n
    rw [show FormattersSingleton.get_defaults builtinState
        = ["json", "jsonp", "value", "xml"] from rfl]
    simp
  · rw [show FormattersSingleton.get_defaults builtinState
        = ["json", "jsonp", "value", "xml"] from rfl]
    decide

/-- C6: on every representative structured value, parse of build recovers
the value for the JSON variant and - given that the injected collaborator
codec round-trips on those values - for the XML and pickle variants; the
pickle variant additionally round-trips the timestamp object, a value the
json codec rejects with TypeError. -/
theorem c6_roundtrip (v : PyVal) (hv : v ∈ representativeValues)
    (X : PythonToXML) (hX : ∀ u ∈ representativeValues, X.loads (X.dumps u) = some u)
    (P : CPickle)
    (hP : ∀ u, u ∈ representativeValues ∨ u = timestampValue →
      P.loads (P.dumps u) = some u) :
    (JSONFormatter.build v).bind JSONFormatter.parse = Except.ok v
    ∧ (XMLFormatter.build X v).bind (XMLFormatter.parse X) = Except.ok v
    ∧ (PickleFormatter.build P v).bind (PickleFormatter.parse P) = Except.ok v
    ∧ (PickleFormatter.build P timestampValue).bind (PickleFormatter.parse P)
        = Except.ok timestampValue
    ∧ JSONFormatter.build timestampValue = Except.error Err.typeError := by
  refine ⟨?_, ?_, ?_, ?_, rfl⟩
  · simp only [representativeValues, List.mem_cons, List.not_mem_nil, or_false] at hv
    rcases hv with rfl | rfl | rfl <;> rfl
  · show XMLFormatter.parse X (PyVal.str (X.dumps v)) = Except.ok v
    simp only [XMLFormatter.parse]
    rw [hX v hv]
  · show PickleFormatter.parse P (PyVal.bytes (P.dumps v)) = Except.ok v
    simp only [PickleFormatter.parse]
    rw [hP v (Or.inl hv)]
  · show PickleFormatter.parse P (PyVal.bytes (P.dumps timestampValue))
        = Except.ok timestampValue
    simp only [PickleFormatter.parse]
    rw [hP timestampValue (Or.inr rfl)]

theorem c6_roundtrip_witness :
    (JSONFormatter.build rep1).bind JSONFormatter.parse = Except.ok rep1
    ∧ (XMLFormatter.build demoXML rep1).bind (XMLFormatter.parse demoXML) = Except.ok rep1
    ∧ (PickleFormatter.build demoPickle rep1).bind (PickleFormatter.parse demoPickle)
        = Except.ok rep1
    ∧ (PickleFormatter.build demoPickle timestampValue).bind (PickleFormatter.parse demoPickle)
        = Except.ok timestampValue
    ∧ JSONFormatter.build timestampValue = Except.error Err.typeError :=
  c6_roundtrip rep1 (List.mem_cons_self rep1 [rep2, rep3])
    demoXML
    (by
      intro u hu
      simp only [representativeValues, List.mem_cons, List.not_mem_nil, or_false] at hu
      rcases hu with rfl | rfl | rfl <;> rfl)
    demoPickle
    (by
      intro u hu
      rcases hu with hu | rfl
      · simp only [representativeValues, List.mem_cons, List.not_mem_nil, or_false] at hu
        rcases hu with rfl | rfl | rfl <;> rfl
      · rfl)

/-- C7: after a snapshot (copy) of the registry dict, any sequence of
mutations applied to the snapshot leaves every lookup, containment test and
get_defaults result on the live registry dict unchanged. -/
theorem c7_snapshot_frame (h : Heap) (regAddr : Nat) (ops : List DictOp) (name : String)
    (hlt : regAddr < h.dicts.length) :
    FormattersSingleton.getItem
        ((applyOps (copyDict h regAddr).1 (copyDict h regAddr).2 ops).get regAddr) name
      = FormattersSingleton.getItem (h.get regAddr) name
    ∧ FormattersSingleton.contains
        ((applyOps (copyDict h regAddr).1 (copyDict h regAddr).2 ops).get regAddr) name
      = FormattersSingleton.contains (h.get regAddr) name
    ∧ FormattersSingleton.get_defaults
        ((applyOps (copyDict h regAddr).1 (copyDict h regAddr).2 ops).get regAddr)
      = FormattersSingleton.get_defaults (h.get regAddr) := by
  have hne : (copyDict h regAddr).2 ≠ regAddr := (Nat.ne_of_lt hlt).symm
  have hget : (applyOps (copyDict h regAddr).1 (copyDict h regAddr).2 ops).get regAddr
      = h.get regAddr :=
    (Heap.get_applyOps_ne ops (copyDict h regAddr).1 (copyDict h regAddr).2 regAddr hne).trans
      (Heap.get_alloc_lt h (h.get regAddr) regAddr hlt)
  rw [hget]
  exact ⟨rfl, rfl, rfl⟩

theorem c7_snapshot_frame_witness :
    FormattersSingleton.getItem
        ((applyOps (copyDict ⟨[[("json", JSONFormatter.ctor)]]⟩ 0).1
          (copyDict ⟨[[("json", JSONFormatter.ctor)]]⟩ 0).2
          [DictOp.del "json", DictOp.put "extra" XMLFormatter.ctor]).get 0) "json"
      = FormattersSingleton.getItem ((⟨[[("json", JSONFormatter.ctor)]]⟩ : Heap).get 0) "json"
    ∧ FormattersSingleton.contains
        ((applyOps (copyDict ⟨[[("json", JSONFormatter.ctor)]]⟩ 0).1
          (copyDict ⟨[[("json", JSONFormatter.ctor)]]⟩ 0).2
          [DictOp.del "json", DictOp.put "extra" XMLFormatter.ctor]).get 0) "json"
      = FormattersSingleton.contains ((⟨[[("json", JSONFormatter.ctor)]]⟩ : Heap).get 0) "json"
    ∧ FormattersSingleton.get_defaults
        ((applyOps (copyDict ⟨[[("json", JSONFormatter.ctor)]]⟩ 0).1
          (copyDict ⟨[[("json", JSONFormatter.ctor)]]⟩ 0).2
          [DictOp.del "json", DictOp.put "extra" XMLFormatter.ctor]).get 0)
      = FormattersSingleton.get_defaults ((⟨[[("json", JSONFormatter.ctor)]]⟩ : Heap).get 0) :=
  c7_snapshot_frame ⟨[[("json", JSONFormatter.ctor)]]⟩ 0
    [DictOp.del "json", DictOp.put "extra" XMLFormatter.ctor] "json" (by decide)

/-- C8 fails on the code: dispatch (kwargs) with an action that is neither
build nor parse does not raise - both branches are skipped and the method
returns None implicitly. -/
theorem c8_counterexample :
    JSONFormatter.kwargs PyVal.none "delete" = Except.ok PyVal.none
    ∧ ("delete" : String) ≠ "build" ∧ ("delete" : String) ≠ "parse" :=
  ⟨rfl, by decide, by decide⟩

/-- C8 as amended: for the json, value, pickle and xml variants dispatch
with an unknown action returns None (Python's implicit return) without
raising; the jsonp variant's dispatch fails with TypeError for every
action because of its arity defect. -/
theorem c8_unknown_action (X : PythonToXML) (P : CPickle) (v : PyVal) (a : String)
    (hb : a ≠ "build") (hp : a ≠ "parse") :
    JSONFormatter.kwargs v a = Except.ok PyVal.none
    ∧ ValueFormatter.kwargs v a = Except.ok PyVal.none
    ∧ PickleFormatter.kwargs P v a = Except.ok PyVal.none
    ∧ XMLFormatter.kwargs X v a = Except.ok PyVal.none
    ∧ JSONPFormatter.kwargs v a = Except.error Err.typeError := by
  refine ⟨?_, ?_, ?_, ?_, rfl⟩
  · simp [JSONFormatter.kwargs, hb, hp]
  · simp [ValueFormatter.kwargs, hb, hp]
  · simp [PickleFormatter.kwargs, hb, hp]
  · simp [XMLFormatter.kwargs, hb, hp]

theorem c8_unknown_action_witness :
    JSONFormatter.kwargs PyVal.none "delete" = Except.ok PyVal.none
    ∧ ValueFormatter.kwargs PyVal.none "delete" = Except.ok PyVal.none
    ∧ PickleFormatter.kwargs demoPickle PyVal.none "delete" = Except.ok PyVal.none
    ∧ XMLFormatter.kwargs demoXML PyVal.none "delete" = Except.ok PyVal.none
    ∧ JSONPFormatter.kwargs PyVal.none "delete" = Except.error Err.typeError :=
  c8_unknown_action demoXML demoPickle PyVal.none "delete" (by decide) (by decide)

/-- C9: in every registry state reachable through successful register
calls, the keys are unique, and every name get_defaults returns is a
registered key. -/
theorem c9_invariant (st : List (String × Ctor)) (h : Reachable st) :
    (dictKeys st).Nodup
    ∧ ∀ n ∈ FormattersSingleton.get_defaults st, n ∈ dictKeys st := by
  constructor
  · induction h with
    | init => simp [dictKeys]
    | step st st' name c override hr hok ih =>
        rw [register_ok_eq st st' name c override hok]
        exact nodup_dictKeys_dictSet st name c ih
  · intro n hn
    have h2 := mem_dictKeys_dictOfPairs _ n hn
    rcases List.mem_map.mp h2 with ⟨p, hp, hpn⟩
    exact List.mem_map.mpr ⟨p, List.mem_of_mem_filter hp, hpn⟩

theorem c9_invariant_witness :
    (dictKeys [("json", JSONFormatter.ctor)]).Nodup
    ∧ ∀ n ∈ FormattersSingleton.get_defaults [("json", JSONFormatter.ctor)],
        n ∈ dictKeys [("json", JSONFormatter.ctor)] :=
  c9_invariant [("json", JSONFormatter.ctor)]
    (Reachable.step [] [("json", JSONFormatter.ctor)] "json" JSONFormatter.ctor false
      Reachable.init rfl)

/-- C10: pickle parse accepts text and byte strings: a text value is
UTF-8-encoded and then deserialized, a byte string is deserialized
directly, so whenever a byte string is the lossless UTF-8 decoding's
image the two paths agree; and parse of build goes through the byte
path. -/
theorem c10_pickle_parse_text (P : CPickle) (s : String) (b : List Nat) (v : PyVal)
    (hb : utf8Encode s = b) :
    PickleFormatter.parse P (PyVal.str s) = PickleFormatter.parse P (PyVal.bytes b)
    ∧ PickleFormatter.parse P (PyVal.bytes b)
        = (match P.loads b with
           | some u => Except.ok u
           | Option.none => Except.error Err.decodeError)
    ∧ (PickleFormatter.build P v).bind (PickleFormatter.parse P)
        = (match P.loads (P.dumps v) with
           | some u => Except.ok u
           | Option.none => Except.error Err.decodeError) := by
  subst hb
  exact ⟨rfl, rfl, rfl⟩

theorem c10_pickle_parse_text_witness :
    PickleFormatter.parse demoPickle (PyVal.str "ab")
      = PickleFormatter.parse demoPickle (PyVal.bytes [97, 98])
    ∧ PickleFormatter.parse demoPickle (PyVal.bytes [97, 98])
        = (match demoPickle.loads [97, 98] with
           | some u => Except.ok u
           | Option.none => Except.error Err.decodeError)
    ∧ (PickleFormatter.build demoPickle PyVal.none).bind (PickleFormatter.parse demoPickle)
        = (match demoPickle.loads (demoPickle.dumps PyVal.none) with
           | some u => Except.ok u
           | Option.none => Except.error Err.decodeError) :=
  c10_pickle_parse_text demoPickle "ab" [97, 98] PyVal.none rfl
